import Mathlib

/-!
Shallow embedding of `src/utils/moderation.rs` from the revanced-discord-bot
repository: the temporal sanction engine (mute expiry task spawned by
`queue_unmute_member`), the rejoin reconciler (`mute_on_join`), and the
immediate ban/unban wrapper (`ban_moderation`).

External effects (MongoDB store calls, Discord HTTP calls) are modelled by
environments that fix the result of each call, and the functions return,
besides their Rust return value, the list of directory calls they issued,
so that call order and call absence are provable facts.
-/

namespace Moderation

/-- Discord role identifier (`u64` / serenity `RoleId`). -/
abbrev RoleId := Nat

/-- An error value produced by the serenity HTTP layer (`SerenityError`).
Its internal structure is irrelevant here; it is an opaque payload carried
by value, modelled as a tag. -/
structure SerenityError where
  code : Nat
deriving DecidableEq, Repr

/-- An error value produced by the MongoDB layer (`mongodb::error::Error`),
again an opaque payload carried by value. -/
structure DbError where
  code : Nat
deriving DecidableEq, Repr

/-- `crate::Error` is a boxed dynamic error: a value of one of the
underlying error types, with its dynamic type (but nothing else, in
particular not the call site) recoverable from the value.  The two sources
flowing into `moderation.rs` are database errors and serenity errors. -/
inductive Error
  | db (e : DbError)
  | serenity (e : SerenityError)
deriving DecidableEq, Repr

/-- Modelled from the spec: the Sanction Record (`crate::db::model::Muted`,
whose defining module is not part of the provided sources).  Per spec §3 and
the uses in `moderation.rs` it carries the subject identifier and the role
snapshot `taken_roles`; both fields are optional in the stored document
(the source unwraps `taken_roles`). -/
structure Muted where
  user_id : Option String
  taken_roles : Option (List String)
deriving DecidableEq, Repr

/-- Rust `str::parse::<u64>`: an optional leading `+`, then one or more
ASCII decimal digits, value below `2 ^ 64`; everything else is an error
(`none`). -/
def parseU64 (s : String) : Option Nat :=
  let cs :=
    match s.data with
    | '+' :: rest => rest
    | cs => cs
  if cs = [] then none
  else if cs.all Char.isDigit then
    let n := cs.foldl (fun a c => a * 10 + (c.toNat - 48)) 0
    if n < 2 ^ 64 then some n else none
  else none

/-- The source's `.into_iter().map(|r| r.parse::<u64>().unwrap()).collect()`
over `taken_roles`: parse every entry in order, `none` as soon as one entry
fails (the `unwrap` panic). -/
def parseAll : List String → Option (List Nat)
  | [] => some []
  | s :: rest =>
    match parseU64 s with
    | none => none
    | some n =>
      match parseAll rest with
      | none => none
      | some ns => some (n :: ns)

/-- A call issued to the directory adapter (serenity member API). -/
inductive DirCall
  | addRoles (roles : List RoleId)
  | removeRole (role : RoleId)
  | addRole (role : RoleId)
deriving DecidableEq, Repr

/-- Result of one run of the expiry task body: either it panicked (an
`unwrap` failed), or it returned its `Option<Error>` value; in both cases
we record the directory calls issued before that point. -/
inductive TaskResult
  | panicked (calls : List DirCall)
  | returned (outcome : Option Error) (calls : List DirCall)
deriving DecidableEq, Repr

/-- The directory calls a task run issued. -/
def TaskResult.calls : TaskResult → List DirCall
  | .panicked cs => cs
  | .returned _ cs => cs

/-- Whether the task run panicked. -/
def TaskResult.isPanicked : TaskResult → Bool
  | .panicked _ => true
  | .returned _ _ => false

/-- The `Option<Error>` value the task returned, if it did return. -/
def TaskResult.outcome : TaskResult → Option (Option Error)
  | .panicked _ => none
  | .returned o _ => some o

/-- Environment of one run of the expiry task: the results of the three
external calls it can make (`find_and_delete`, `add_roles`,
`remove_role`). -/
structure UnmuteEnv where
  deleteResult : Except Error (Option Muted)
  addRolesResult : Except SerenityError Unit
  removeRoleResult : Except SerenityError Unit

/-- The body of the task spawned by `queue_unmute_member` (after the
sleep), from `src/utils/moderation.rs` lines 85–120.  It calls
`find_and_delete`; on a database error it returns `Some(err)`; on a missing
record it returns `None`; on a found record it unwraps `taken_roles`
(panicking on `None`), parses each entry as `u64` (panicking on a parse
failure), issues `add_roles`, and on its success issues `remove_role`,
wrapping a failure of either into `Some(Error::from(_))` and otherwise
returning `None`. -/
def queue_unmute_member (mute_role_id : RoleId) (env : UnmuteEnv) : TaskResult :=
  match env.deleteResult with
  | .error database_remove_result => .returned (some database_remove_result) []
  | .ok none => .returned none []
  | .ok (some find_result) =>
    match find_result.taken_roles with
    | none => .panicked []
    | some rs =>
      match parseAll rs with
      | none => .panicked []
      | some taken_roles =>
        match env.addRolesResult with
        | .error add_role_result =>
          .returned (some (Error.serenity add_role_result)) [DirCall.addRoles taken_roles]
        | .ok _ =>
          match env.removeRoleResult with
          | .error remove_result =>
            .returned (some (Error.serenity remove_result))
              [DirCall.addRoles taken_roles, DirCall.removeRole mute_role_id]
          | .ok _ =>
            .returned none [DirCall.addRoles taken_roles, DirCall.removeRole mute_role_id]

/-- Modelled from the spec (§4.1): the store's `findAndDelete` for a fixed
subject.  The store state for that subject is `Option Muted`; the call
either fails on transport (leaving the state unchanged and returning the
error) or atomically returns the current record, removing it. -/
def findAndDelete (transportFail : Option DbError) (st : Option Muted) :
    Except Error (Option Muted) × Option Muted :=
  match transportFail with
  | some e => (.error (Error.db e), st)
  | none => (.ok st, none)

/-- Environment of one resolution attempt against the live store: whether
the store call fails on transport, and the results of the two directory
calls. -/
structure ResolveEnv where
  storeFail : Option DbError
  addRolesResult : Except SerenityError Unit
  removeRoleResult : Except SerenityError Unit

/-- One resolution attempt (the expiry task, or per spec §4.2 a concurrent
manual-unmute attempt, which arbitrates through the same atomic
`findAndDelete`) run against the store state for the subject. -/
def resolveStep (mute_role_id : RoleId) (env : ResolveEnv) (st : Option Muted) :
    TaskResult × Option Muted :=
  let fd := findAndDelete env.storeFail st
  (queue_unmute_member mute_role_id
    { deleteResult := fd.1
      addRolesResult := env.addRolesResult
      removeRoleResult := env.removeRoleResult },
   fd.2)

/-- A sequence of resolution attempts threaded through the store state.
Because `findAndDelete` is a single atomic storage operation and the store
is the only shared mutable state, every interleaving of concurrent attempts
is equivalent to running them in the serialization order of their
`findAndDelete` operations, which is what this function does. -/
def resolveRuns (mute_role_id : RoleId) :
    List ResolveEnv → Option Muted → List TaskResult × Option Muted
  | [], st => ([], st)
  | env :: rest, st =>
    let step := resolveStep mute_role_id env st
    let further := resolveRuns mute_role_id rest step.2
    (step.1 :: further.1, further.2)

/-- A run performed membership restoration: it issued at least one
directory call. -/
def performedRestoration (r : TaskResult) : Bool :=
  !r.calls.isEmpty

/-- A run consumed (found and deleted) the record: it either issued
directory calls or panicked after the delete (the panic happens only once a
record was returned). -/
def consumedRecord (r : TaskResult) : Bool :=
  r.isPanicked || !r.calls.isEmpty

/-- An operation issued against the sanction store. -/
inductive StoreOp
  | findOne (limit : Option Nat)
  | deleteOne
  | insertOne (r : Muted)
deriving DecidableEq, Repr

/-- Effect of a store operation on the store state for the subject:
a point lookup leaves it unchanged, a find-and-delete removes the record,
an insert stores one. -/
def applyStoreOp (st : Option Muted) : StoreOp → Option Muted
  | .findOne _ => st
  | .deleteOne => none
  | .insertOne r => some r

/-- Environment of one `mute_on_join` invocation: whether the `find` call
and the cursor advance fail on transport, and the result of the single
`add_role` call. -/
structure JoinEnv where
  findFail : Option DbError
  advanceFail : Option DbError
  addRoleResult : Except SerenityError Unit

/-- Observable output of one `mute_on_join` invocation: the value the Rust
function returns (its return type is `()`), the store operations it issued,
the directory calls it issued, and how many `error!` log lines it
emitted. -/
structure JoinRun where
  value : Unit
  storeOps : List StoreOp
  dirCalls : List DirCall
  errorLogs : Nat
deriving DecidableEq, Repr

/-- `mute_on_join` from `src/utils/moderation.rs` lines 29–72.  It issues a
point lookup (`find` with limit 1) for the member's record; if the query or
the cursor advance fails it logs an error and returns; if a record is found
it issues a single `add_role` for the configured mute role, logging an
error on failure; in every case it returns `()`. -/
def mute_on_join (mute_role : RoleId) (env : JoinEnv) (st : Option Muted) : JoinRun :=
  match env.findFail with
  | some _ =>
    { value := (), storeOps := [StoreOp.findOne (some 1)], dirCalls := [], errorLogs := 1 }
  | none =>
    match env.advanceFail with
    | some _ =>
      { value := (), storeOps := [StoreOp.findOne (some 1)], dirCalls := [], errorLogs := 1 }
    | none =>
      match st with
      | none =>
        { value := (), storeOps := [StoreOp.findOne (some 1)], dirCalls := [], errorLogs := 0 }
      | some _ =>
        match env.addRoleResult with
        | .ok _ =>
          { value := (), storeOps := [StoreOp.findOne (some 1)],
            dirCalls := [DirCall.addRole mute_role], errorLogs := 0 }
        | .error _ =>
          { value := (), storeOps := [StoreOp.findOne (some 1)],
            dirCalls := [DirCall.addRole mute_role], errorLogs := 1 }

/-- `BanKind` from `src/utils/moderation.rs`: a ban carries the user, an
optional number of days of messages to delete (`Option<u8>`, values below
256), and an optional reason; an unban carries only the user. -/
inductive BanKind
  | ban (user : Nat) (dmd : Option Nat) (reason : Option String)
  | unban (user : Nat)
deriving DecidableEq, Repr

/-- A call issued to the Discord HTTP ban API. -/
inductive HttpCall
  | banUser (guild : Nat) (user : Nat) (dmd : Nat) (reason : String)
  | removeBan (guild : Nat) (user : Nat)
deriving DecidableEq, Repr

/-- `ban_moderation` from `src/utils/moderation.rs` lines 250–288.  For a
ban it defaults the reason to "None specified", clamps the
delete-message-days to `min(dmd.unwrap_or(0), 7)` and issues one `ban_user`
call; for an unban it issues one `remove_ban` call.  It returns the
serenity error of a failed call, `none` otherwise, next to the call
issued. -/
def ban_moderation (guild_id : Nat) (callResult : Except SerenityError Unit)
    (kind : BanKind) : Option SerenityError × List HttpCall :=
  match kind with
  | .ban user dmd reason =>
    let reason := (reason.or (some "None specified")).getD ""
    let call := HttpCall.banUser guild_id user (min (dmd.getD 0) 7) reason
    match callResult with
    | .error err => (some err, [call])
    | .ok _ => (none, [call])
  | .unban user =>
    let call := HttpCall.removeBan guild_id user
    match callResult with
    | .error err => (some err, [call])
    | .ok _ => (none, [call])

/-! ## Helper lemmas -/

/-- `parseAll` fails exactly when some entry fails to parse. -/
lemma parseAll_eq_none (rs : List String) :
    parseAll rs = none ↔ ∃ s ∈ rs, parseU64 s = none := by
  induction rs with
  | nil => simp [parseAll]
  | cons a l ih =>
    cases h : parseU64 a with
    | none => simp [parseAll, h]
    | some n =>
      cases h2 : parseAll l with
      | none =>
        have hl := ih.mp h2
        simp [parseAll, h, h2, hl]
      | some ns =>
        have hl : ¬ ∃ s ∈ l, parseU64 s = none := fun hx =>
          Option.noConfusion ((ih.mpr hx).symm.trans h2)
        simp [parseAll, h, h2, hl]

/-- `parseAll` succeeds exactly when every entry parses. -/
lemma parseAll_isSome (rs : List String) :
    (parseAll rs).isSome ↔ ∀ s ∈ rs, (parseU64 s).isSome := by
  rw [Option.isSome_iff_ne_none, ne_eq, parseAll_eq_none]
  push_neg
  simp [Option.isSome_iff_ne_none]

/-! ## Claims about the expiry task -/

/-- C2: if `find_and_delete` fails with a storage error, the task returns
that error as its outcome and issues no directory calls. -/
theorem unmute_store_error_reported_no_dir_calls
    (mid : RoleId) (e : Error) (add rem : Except SerenityError Unit) :
    queue_unmute_member mid ⟨Except.error e, add, rem⟩ =
      TaskResult.returned (some e) [] := rfl

/-- C3: if `find_and_delete` succeeds but returns no record, the task
issues no directory calls and returns the success value `none` (a no-op,
not a failure). -/
theorem unmute_missing_record_noop
    (mid : RoleId) (add rem : Except SerenityError Unit) :
    queue_unmute_member mid ⟨Except.ok none, add, rem⟩ =
      TaskResult.returned none [] := rfl

/-- C4: if a record is found, the task issues `add_roles` with the parsed
`taken_roles` strictly before `remove_role` of the mute role, and when both
directory calls succeed its outcome is the success value `none`. -/
theorem unmute_success_add_before_remove
    (mid : RoleId) (m : Muted) (rs : List String) (roles : List RoleId)
    (h1 : m.taken_roles = some rs) (h2 : parseAll rs = some roles) :
    queue_unmute_member mid ⟨Except.ok (some m), Except.ok (), Except.ok ()⟩ =
      TaskResult.returned none [DirCall.addRoles roles, DirCall.removeRole mid] := by
  simp [queue_unmute_member, h1, h2]

/-- Witness for C4 at a concrete record with `taken_roles = ["4", "5"]`. -/
theorem unmute_success_add_before_remove_witness :
    queue_unmute_member 9
        ⟨Except.ok (some ⟨some "1", some ["4", "5"]⟩), Except.ok (), Except.ok ()⟩ =
      TaskResult.returned none [DirCall.addRoles [4, 5], DirCall.removeRole 9] :=
  unmute_success_add_before_remove 9 ⟨some "1", some ["4", "5"]⟩ ["4", "5"] [4, 5]
    rfl (by decide)

/-- C10: with a record found, the task panics when `taken_roles` is absent
or when some entry does not parse as a decimal `u64`; when every entry
parses, the run does not panic. -/
theorem unmute_panic_conditions (mid : RoleId) (m : Muted)
    (add rem : Except SerenityError Unit) :
    (m.taken_roles = none →
      queue_unmute_member mid ⟨Except.ok (some m), add, rem⟩ = TaskResult.panicked []) ∧
    (∀ rs, m.taken_roles = some rs → (∃ s ∈ rs, parseU64 s = none) →
      queue_unmute_member mid ⟨Except.ok (some m), add, rem⟩ = TaskResult.panicked []) ∧
    (∀ rs, m.taken_roles = some rs → (∀ s ∈ rs, (parseU64 s).isSome) →
      (queue_unmute_member mid ⟨Except.ok (some m), add, rem⟩).isPanicked = false) := by
  refine ⟨fun h => by simp [queue_unmute_member, h], ?_, ?_⟩
  · intro rs h hfail
    have hnone : parseAll rs = none := (parseAll_eq_none rs).mpr hfail
    simp [queue_unmute_member, h, hnone]
  · intro rs h hok
    have hsome : (parseAll rs).isSome := (parseAll_isSome rs).mpr hok
    obtain ⟨roles, hroles⟩ := Option.isSome_iff_exists.mp hsome
    cases add <;> cases rem <;>
      simp [queue_unmute_member, h, hroles, TaskResult.isPanicked]

/-- Witness for C10: a missing `taken_roles` panics, an unparseable entry
panics, and a fully parseable snapshot does not panic. -/
theorem unmute_panic_conditions_witness :
    (queue_unmute_member 9 ⟨Except.ok (some ⟨some "1", none⟩), Except.ok (), Except.ok ()⟩
      = TaskResult.panicked []) ∧
    (queue_unmute_member 9 ⟨Except.ok (some ⟨some "1", some ["x"]⟩), Except.ok (), Except.ok ()⟩
      = TaskResult.panicked []) ∧
    ((queue_unmute_member 9
        ⟨Except.ok (some ⟨some "1", some ["4"]⟩), Except.ok (), Except.ok ()⟩).isPanicked
      = false) :=
  ⟨(unmute_panic_conditions 9 ⟨some "1", none⟩ (Except.ok ()) (Except.ok ())).1 rfl,
   (unmute_panic_conditions 9 ⟨some "1", some ["x"]⟩ (Except.ok ()) (Except.ok ())).2.1
     ["x"] rfl ⟨"x", by simp, by decide⟩,
   (unmute_panic_conditions 9 ⟨some "1", some ["4"]⟩ (Except.ok ()) (Except.ok ())).2.2
     ["4"] rfl (by decide)⟩

/-- C5 counterexample: the task's return type is a single `Option<Error>`,
so two runs that fail at different stages — role re-addition versus role
removal — can return the very same outcome value when the underlying
serenity error is the same; the stages are not distinguishable from the
outcome.  The two runs are genuinely different: their directory call lists
differ. -/
theorem unmute_outcome_stage_indistinct :
    (queue_unmute_member 9
        ⟨Except.ok (some ⟨some "1", some ["4"]⟩), Except.error ⟨7⟩, Except.ok ()⟩).outcome =
      (queue_unmute_member 9
        ⟨Except.ok (some ⟨some "1", some ["4"]⟩), Except.ok (), Except.error ⟨7⟩⟩).outcome ∧
    (queue_unmute_member 9
        ⟨Except.ok (some ⟨some "1", some ["4"]⟩), Except.error ⟨7⟩, Except.ok ()⟩).calls ≠
      (queue_unmute_member 9
        ⟨Except.ok (some ⟨some "1", some ["4"]⟩), Except.ok (), Except.error ⟨7⟩⟩).calls := by
  decide

/-- C5 amended: the outcome separates failure (`some error`) from the
success and no-op outcomes (both `none`), and a storage failure from a
directory failure (the boxed error's dynamic type differs), but it does not
identify which directory stage failed — a role re-addition failure and a
role removal failure with the same underlying serenity error yield equal
outcomes — and the success and no-op outcomes coincide. -/
theorem unmute_outcome_distinguishes_source_not_stage
    (mid : RoleId) (m : Muted) (rs : List String) (roles : List RoleId)
    (h1 : m.taken_roles = some rs) (h2 : parseAll rs = some roles)
    (edb : DbError) (es : SerenityError) :
    (queue_unmute_member mid ⟨Except.error (Error.db edb), Except.ok (), Except.ok ()⟩).outcome
      = some (some (Error.db edb)) ∧
    (queue_unmute_member mid ⟨Except.ok (some m), Except.error es, Except.ok ()⟩).outcome
      = some (some (Error.serenity es)) ∧
    (∀ e1 e2, Error.db e1 ≠ Error.serenity e2) ∧
    (queue_unmute_member mid ⟨Except.ok (some m), Except.error es, Except.ok ()⟩).outcome
      = (queue_unmute_member mid ⟨Except.ok (some m), Except.ok (), Except.error es⟩).outcome ∧
    (queue_unmute_member mid ⟨Except.ok (some m), Except.ok (), Except.ok ()⟩).outcome
      = (queue_unmute_member mid ⟨Except.ok none, Except.ok (), Except.ok ()⟩).outcome := by
  refine ⟨rfl, ?_, ?_, ?_, ?_⟩ <;>
    simp [queue_unmute_member, h1, h2, TaskResult.outcome]

/-- Witness for the amended C5 at a concrete record. -/
theorem unmute_outcome_distinguishes_source_not_stage_witness :
    (queue_unmute_member 9
        ⟨Except.error (Error.db ⟨3⟩), Except.ok (), Except.ok ()⟩).outcome
      = some (some (Error.db ⟨3⟩)) ∧
    (queue_unmute_member 9
        ⟨Except.ok (some ⟨some "1", some ["4"]⟩), Except.error ⟨7⟩, Except.ok ()⟩).outcome
      = some (some (Error.serenity ⟨7⟩)) ∧
    (∀ e1 e2, Error.db e1 ≠ Error.serenity e2) ∧
    (queue_unmute_member 9
        ⟨Except.ok (some ⟨some "1", some ["4"]⟩), Except.error ⟨7⟩, Except.ok ()⟩).outcome
      = (queue_unmute_member 9
          ⟨Except.ok (some ⟨some "1", some ["4"]⟩), Except.ok (), Except.error ⟨7⟩⟩).outcome ∧
    (queue_unmute_member 9
        ⟨Except.ok (some ⟨some "1", some ["4"]⟩), Except.ok (), Except.ok ()⟩).outcome
      = (queue_unmute_member 9 ⟨Except.ok none, Except.ok (), Except.ok ()⟩).outcome :=
  unmute_outcome_distinguishes_source_not_stage 9 ⟨some "1", some ["4"]⟩ ["4"] [4]
    rfl (by decide) ⟨3⟩ ⟨7⟩

/-- C6: if the record is found and deleted but `add_roles` fails, the task
returns a failure outcome, `remove_role` is never issued (the mute role
stays on the member), and the store state for the subject is already `none`
— the record was deleted and nothing re-inserts it. -/
theorem unmute_add_failure_keeps_restriction_record_gone
    (mid : RoleId) (m : Muted) (rs : List String) (roles : List RoleId)
    (h1 : m.taken_roles = some rs) (h2 : parseAll rs = some roles)
    (es : SerenityError) (rem : Except SerenityError Unit) :
    resolveStep mid ⟨none, Except.error es, rem⟩ (some m) =
      (TaskResult.returned (some (Error.serenity es)) [DirCall.addRoles roles], none) := by
  simp [resolveStep, findAndDelete, queue_unmute_member, h1, h2]

/-- Witness for C6 at a concrete record. -/
theorem unmute_add_failure_keeps_restriction_record_gone_witness :
    resolveStep 9 ⟨none, Except.error ⟨7⟩, Except.ok ()⟩ (some ⟨some "1", some ["4"]⟩) =
      (TaskResult.returned (some (Error.serenity ⟨7⟩)) [DirCall.addRoles [4]], none) :=
  unmute_add_failure_keeps_restriction_record_gone 9 ⟨some "1", some ["4"]⟩ ["4"] [4]
    rfl (by decide) ⟨7⟩ (Except.ok ())

/-- A resolution attempt against an empty store consumes nothing, calls
nothing, and leaves the store empty. -/
lemma resolveStep_none (mid : RoleId) (env : ResolveEnv) :
    (resolveStep mid env none).2 = none ∧
    consumedRecord (resolveStep mid env none).1 = false := by
  rcases env with ⟨sf, add, rem⟩
  cases sf <;>
    simp [resolveStep, findAndDelete, queue_unmute_member, consumedRecord,
      TaskResult.isPanicked, TaskResult.calls]

/-- A resolution attempt whose store call fails on transport returns the
database error, makes no directory call, and leaves the store unchanged. -/
lemma resolveStep_storeFail (mid : RoleId) (env : ResolveEnv) (st : Option Muted)
    (e : DbError) (h : env.storeFail = some e) :
    (resolveStep mid env st).1 = TaskResult.returned (some (Error.db e)) [] ∧
    (resolveStep mid env st).2 = st := by
  rcases env with ⟨sf, add, rem⟩
  cases h
  simp [resolveStep, findAndDelete, queue_unmute_member]

/-- Whenever the task observes a record, the run consumes it: it either
panics after the delete or issues directory calls. -/
lemma consumedRecord_found (mid : RoleId) (m : Muted)
    (add rem : Except SerenityError Unit) :
    consumedRecord (queue_unmute_member mid ⟨Except.ok (some m), add, rem⟩) = true := by
  cases h1 : m.taken_roles with
  | none =>
    simp [queue_unmute_member, h1, consumedRecord, TaskResult.isPanicked, TaskResult.calls]
  | some rs =>
    cases h2 : parseAll rs with
    | none =>
      simp [queue_unmute_member, h1, h2, consumedRecord, TaskResult.isPanicked,
        TaskResult.calls]
    | some roles =>
      cases add <;> cases rem <;>
        simp [queue_unmute_member, h1, h2, consumedRecord, TaskResult.isPanicked,
          TaskResult.calls]

/-- A successful store call on a present record consumes it and leaves the
store empty. -/
lemma resolveStep_some_consumed (mid : RoleId) (env : ResolveEnv) (m : Muted)
    (h : env.storeFail = none) :
    consumedRecord (resolveStep mid env (some m)).1 = true ∧
    (resolveStep mid env (some m)).2 = none := by
  rcases env with ⟨sf, add, rem⟩
  cases h
  exact ⟨consumedRecord_found mid m add rem, rfl⟩

/-- Once the store is empty no later attempt consumes a record, and the
store stays empty. -/
lemma resolveRuns_from_none (mid : RoleId) (envs : List ResolveEnv) :
    (resolveRuns mid envs none).1.countP consumedRecord = 0 ∧
    (resolveRuns mid envs none).2 = none := by
  induction envs with
  | nil => simp [resolveRuns]
  | cons env rest ih =>
    have h := resolveStep_none mid env
    simp [resolveRuns, h.1, h.2, ih.1, ih.2, List.countP_cons]

/-- C1: across any serialization of concurrent resolution attempts (the
expiry timer's attempt, a second fire, a manual unmute) arbitrated by the
store's atomic `findAndDelete`, at most one attempt consumes the record and
at most one attempt issues membership-restoration directory calls. -/
theorem unmute_resolution_at_most_once (mid : RoleId) (envs : List ResolveEnv)
    (st : Option Muted) :
    (resolveRuns mid envs st).1.countP consumedRecord ≤ 1 ∧
    (resolveRuns mid envs st).1.countP performedRestoration ≤ 1 := by
  have hmain : ∀ (envs : List ResolveEnv) (st : Option Muted),
      (resolveRuns mid envs st).1.countP consumedRecord ≤ 1 := by
    intro envs
    induction envs with
    | nil => intro st; simp [resolveRuns]
    | cons env rest ih =>
      intro st
      cases st with
      | none =>
        have h := (resolveRuns_from_none mid (env :: rest)).1
        omega
      | some m =>
        cases h : env.storeFail with
        | some e =>
          have hstep := resolveStep_storeFail mid env (some m) e h
          have hrest := ih (some m)
          simp only [resolveRuns, hstep.1, hstep.2, List.countP_cons]
          simp [consumedRecord, TaskResult.isPanicked, TaskResult.calls]
          omega
        | none =>
          have hstep := resolveStep_some_consumed mid env m h
          have hrest := (resolveRuns_from_none mid rest).1
          simp only [resolveRuns, List.countP_cons, hstep.1, hstep.2]
          simp [hrest]
  refine ⟨hmain envs st, le_trans (List.countP_mono_left ?_) (hmain envs st)⟩
  intro r _ hp
  simp only [performedRestoration] at hp
  simp [consumedRecord, hp]

/-! ## Claims about the ban wrapper and the rejoin reconciler -/

/-- C7: for every ban request the single `ban_user` call carries
`min(requested, 7)` delete-message-days: 30 yields 7, 3 yields 3, 0 yields
0, and an omitted amount yields 0. -/
theorem ban_purge_days_clamped (g u : Nat) (res : Except SerenityError Unit)
    (dmd : Option Nat) (reason : Option String) :
    (ban_moderation g res (BanKind.ban u dmd reason)).2 =
      [HttpCall.banUser g u (min (dmd.getD 0) 7) (reason.getD "None specified")] ∧
    (ban_moderation g res (BanKind.ban u (some 30) reason)).2 =
      [HttpCall.banUser g u 7 (reason.getD "None specified")] ∧
    (ban_moderation g res (BanKind.ban u (some 3) reason)).2 =
      [HttpCall.banUser g u 3 (reason.getD "None specified")] ∧
    (ban_moderation g res (BanKind.ban u (some 0) reason)).2 =
      [HttpCall.banUser g u 0 (reason.getD "None specified")] ∧
    (ban_moderation g res (BanKind.ban u none reason)).2 =
      [HttpCall.banUser g u 0 (reason.getD "None specified")] := by
  cases res <;> cases reason <;> simp [ban_moderation]

/-- C8: the rejoin reconciler issues exactly one store operation, the point
lookup with limit 1; the store state is unchanged by its operations; its
directory traffic is empty or a single add of the mute role; and when the
lookup succeeds and a record is present it issues exactly the single add.
It spawns no task and arms no timer (its effect vocabulary contains
none). -/
theorem rejoin_reconciler_read_only (mid : RoleId) (env : JoinEnv) (st : Option Muted) :
    (mute_on_join mid env st).storeOps = [StoreOp.findOne (some 1)] ∧
    (mute_on_join mid env st).storeOps.foldl applyStoreOp st = st ∧
    ((mute_on_join mid env st).dirCalls = [] ∨
      (mute_on_join mid env st).dirCalls = [DirCall.addRole mid]) ∧
    (env.findFail = none → env.advanceFail = none → st.isSome →
      (mute_on_join mid env st).dirCalls = [DirCall.addRole mid]) := by
  rcases env with ⟨ff, af, ar⟩
  cases ff <;> cases af <;> cases st <;> cases ar <;>
    simp [mute_on_join, applyStoreOp]

/-- Witness for C8 on a successful lookup with a present record. -/
theorem rejoin_reconciler_read_only_witness :
    (mute_on_join 9 ⟨none, none, Except.ok ()⟩ (some ⟨some "1", some []⟩)).storeOps
      = [StoreOp.findOne (some 1)] ∧
    (mute_on_join 9 ⟨none, none, Except.ok ()⟩
        (some ⟨some "1", some []⟩)).storeOps.foldl applyStoreOp (some ⟨some "1", some []⟩)
      = some ⟨some "1", some []⟩ ∧
    ((mute_on_join 9 ⟨none, none, Except.ok ()⟩ (some ⟨some "1", some []⟩)).dirCalls = [] ∨
      (mute_on_join 9 ⟨none, none, Except.ok ()⟩ (some ⟨some "1", some []⟩)).dirCalls
        = [DirCall.addRole 9]) ∧
    (mute_on_join 9 ⟨none, none, Except.ok ()⟩ (some ⟨some "1", some []⟩)).dirCalls
      = [DirCall.addRole 9] :=
  have h := rejoin_reconciler_read_only 9 ⟨none, none, Except.ok ()⟩
    (some ⟨some "1", some []⟩)
  ⟨h.1, h.2.1, h.2.2.1, h.2.2.2 rfl rfl rfl⟩

/-- C9 counterexample: `mute_on_join` returns `()`; when the role add fails
its return value is identical to the success case — the `DirectoryError` is
recorded only in an `error!` log line, not surfaced to the caller. -/
theorem rejoin_failure_not_surfaced :
    (mute_on_join 9 ⟨none, none, Except.error ⟨7⟩⟩ (some ⟨some "1", some []⟩)).value =
      (mute_on_join 9 ⟨none, none, Except.ok ()⟩ (some ⟨some "1", some []⟩)).value ∧
    (mute_on_join 9 ⟨none, none, Except.error ⟨7⟩⟩ (some ⟨some "1", some []⟩)).errorLogs
      = 1 ∧
    (mute_on_join 9 ⟨none, none, Except.ok ()⟩ (some ⟨some "1", some []⟩)).errorLogs
      = 0 := by
  decide

/-- C9 amended: when a record exists and the role re-add fails, the
reconciler logs one error line and returns `()` exactly as on success — no
typed failure reaches the caller — and the record remains in the store. -/
theorem rejoin_failure_logged_record_kept (mid : RoleId) (es : SerenityError) (m : Muted) :
    (mute_on_join mid ⟨none, none, Except.error es⟩ (some m)).value = () ∧
    (mute_on_join mid ⟨none, none, Except.error es⟩ (some m)).errorLogs = 1 ∧
    (mute_on_join mid ⟨none, none, Except.error es⟩ (some m)).dirCalls
      = [DirCall.addRole mid] ∧
    (mute_on_join mid ⟨none, none, Except.error es⟩
        (some m)).storeOps.foldl applyStoreOp (some m)
      = some m := by
  simp [mute_on_join, applyStoreOp]

end Moderation
